import Mathlib

/-!
# LLM-Arena Run Orchestrator — verification development

A shallow embedding of the run-orchestration core of the LLM-Arena
repository, together with theorems settling the specification claims.

Embedded components (translated from the TypeScript/JavaScript source):

* `RunStatus`, `Run` record shape — `src/types/index.ts`
* `PortAllocator` — `src/orchestrator/dist/port-allocator.js`
* `GatewayRegistry` — `src/orchestrator/src/gateway-registry.ts`
* `validateCode` — the active LLM client (`llm-client.js`, OpenCode variant)
* `pathJoin` / `prepareWorkspaceWrites`, container `HostConfig`s —
  `src/orchestrator/dist/docker-runtime.js`
* the run lifecycle (`processRun`, health loop, kill endpoint) —
  `src/orchestrator/src/run-manager.ts` plus the express `index.js` surface

Modelling conventions: external effects (the LLM call, the Docker engine,
HTTP health probes) are supplied by an `Oracle` of outcomes; the sequence
of collaborator calls made by the engine is reified as a `List Action`
and the observable orchestrator state as `SysState`.  Status PATCHes to
the main app's store are modelled as delivered (the store applies every
update); Docker engine I/O failures during cleanup are outside the model.
-/

namespace LLMArena

/-- Run status taxonomy, from `src/types/index.ts` (`RunStatus`). -/
inductive RunStatus where
  | queued
  | generating
  | installing
  | building
  | starting
  | healthy
  | ready
  | failed
  | terminated
deriving DecidableEq, Repr

/-- Terminal statuses: `failed` and `terminated`. -/
def RunStatus.isTerminal : RunStatus → Bool
  | .failed => true
  | .terminated => true
  | _ => false

/-! ## Port allocator (`src/orchestrator/dist/port-allocator.js`)

`allocate()` scans `minPort..maxPort` (inclusive) for the first port not
in `usedPorts`, adds it and returns it; when the loop exhausts the range
it throws `'No available ports'` (the spec's `ExhaustedError`).
`release(port)` deletes from the set. -/

structure PortAllocator where
  minPort : Nat
  maxPort : Nat
  usedPorts : Finset Nat
deriving DecidableEq

/-- The `for (let port = minPort; port <= maxPort; port++)` scan of
`allocate()`, as fuelled recursion: first `p ≥ start` (within `fuel`
steps) not in `used`. -/
def allocScan (used : Finset Nat) : Nat → Nat → Option Nat
  | _, 0 => none
  | p, fuel + 1 => if p ∈ used then allocScan used (p + 1) fuel else some p

/-- `PortAllocator.allocate`: lowest free port in the range, or the
`'No available ports'` error. -/
def PortAllocator.allocate (a : PortAllocator) : Except String (Nat × PortAllocator) :=
  match allocScan a.usedPorts a.minPort (a.maxPort + 1 - a.minPort) with
  | some p => .ok (p, { a with usedPorts := insert p a.usedPorts })
  | none => .error "No available ports"

/-- `PortAllocator.release`: `usedPorts.delete(port)`. -/
def PortAllocator.release (a : PortAllocator) (p : Nat) : PortAllocator :=
  { a with usedPorts := a.usedPorts.erase p }

/-- `PortAllocator.getUsedCount`. -/
def PortAllocator.getUsedCount (a : PortAllocator) : Nat := a.usedPorts.card

theorem allocScan_some {used : Finset Nat} {start fuel p : Nat}
    (h : allocScan used start fuel = some p) :
    p ∉ used ∧ start ≤ p ∧ p < start + fuel ∧ ∀ q, start ≤ q → q < p → q ∈ used := by
  induction fuel generalizing start with
  | zero => simp [allocScan] at h
  | succ n ih =>
    rw [allocScan] at h
    by_cases hm : start ∈ used
    · simp only [hm, if_true] at h
      obtain ⟨h1, h2, h3, h4⟩ := ih h
      refine ⟨h1, by omega, by omega, ?_⟩
      intro q hq1 hq2
      rcases Nat.eq_or_lt_of_le hq1 with rfl | hlt
      · exact hm
      · exact h4 q hlt hq2
    · simp only [hm, if_false, Option.some.injEq] at h
      subst h
      exact ⟨hm, Nat.le_refl _, by omega, fun q hq1 hq2 => absurd (Nat.lt_of_le_of_lt hq1 hq2) (Nat.lt_irrefl _)⟩

theorem allocScan_none {used : Finset Nat} {start fuel : Nat}
    (h : allocScan used start fuel = none) :
    ∀ q, start ≤ q → q < start + fuel → q ∈ used := by
  induction fuel generalizing start with
  | zero => intro q h1 h2; omega
  | succ n ih =>
    rw [allocScan] at h
    by_cases hm : start ∈ used
    · simp only [hm, if_true] at h
      intro q hq1 hq2
      rcases Nat.eq_or_lt_of_le hq1 with rfl | hlt
      · exact hm
      · exact ih h q hlt (by omega)
    · simp [hm] at h

theorem allocScan_exhaust {used : Finset Nat} {start fuel : Nat}
    (h : ∀ q, start ≤ q → q < start + fuel → q ∈ used) :
    allocScan used start fuel = none := by
  induction fuel generalizing start with
  | zero => rfl
  | succ n ih =>
    rw [allocScan]
    have hs : start ∈ used := h start (Nat.le_refl _) (by omega)
    simp only [hs, if_true]
    exact ih fun q hq1 hq2 => h q (by omega) (by omega)

/-! ## Gateway registry (`src/orchestrator/src/gateway-registry.ts`)

A `Map<string, string>` from run id to internal URL.  `resolve` returns
`this.runToUrl.get(runId) || null`: an *empty-string* URL is falsy in
JavaScript, so it resolves to `null` just like a missing key. -/

/-- First-match association lookup (`Map.get` semantics: at most one
binding per key is ever stored). -/
def lookupAssoc : List (String × String) → String → Option String
  | [], _ => none
  | (k, v) :: rest, key => if k = key then some v else lookupAssoc rest key

structure GatewayRegistry where
  runToUrl : List (String × String)
deriving DecidableEq, Repr

/-- `GatewayRegistry.registerUrl`: `runToUrl.set(runId, url)`. -/
def GatewayRegistry.registerUrl (r : GatewayRegistry) (runId url : String) : GatewayRegistry :=
  ⟨(runId, url) :: r.runToUrl.filter (fun kv => kv.1 ≠ runId)⟩

/-- `GatewayRegistry.unregister`: `runToUrl.delete(runId)`. -/
def GatewayRegistry.unregister (r : GatewayRegistry) (runId : String) : GatewayRegistry :=
  ⟨r.runToUrl.filter (fun kv => kv.1 ≠ runId)⟩

/-- `GatewayRegistry.resolve`: `runToUrl.get(runId) || null`. -/
def GatewayRegistry.resolve (r : GatewayRegistry) (runId : String) : Option String :=
  match lookupAssoc r.runToUrl runId with
  | some url => if url = "" then none else some url
  | none => none

/-- `GatewayRegistry.size`. -/
def GatewayRegistry.size (r : GatewayRegistry) : Nat := r.runToUrl.length

theorem lookupAssoc_filter_ne (l : List (String × String)) (key : String) :
    lookupAssoc (l.filter (fun kv => kv.1 ≠ key)) key = none := by
  induction l with
  | nil => rfl
  | cons kv rest ih =>
    by_cases hk : kv.1 = key
    · simpa [List.filter, hk] using ih
    · simpa [List.filter, hk, lookupAssoc] using ih

/-! ## LLM client validation (`llm-client.js`, the active OpenCode client)

`generateCode` returns `{ code: { files: { 'app/page.tsx': … } } }`.
`validateCode` reads `code.files['app/page.tsx']`; `!pageCode` is true
for a missing key *and* for the empty string; then it requires the page
to `.includes('export default')` (the second `.includes('export default
function')` test is subsumed by the first). -/

/-- JavaScript `String.prototype.includes`: `needle` occurs as a
contiguous substring of `hay`. -/
def strIncludes (hay needle : String) : Bool :=
  (List.range (hay.toList.length + 1)).any
    (fun i => needle.toList.isPrefixOf (hay.toList.drop i))

/-- The `{files}` map returned by the code-generation call. -/
structure GeneratedCode where
  files : List (String × String)
deriving DecidableEq, Repr

/-- `LLMClient.validateCode` of the active client: `app/page.tsx` must be
present and non-empty and must contain `export default`. -/
def validateCode (code : GeneratedCode) : Except String Unit :=
  match lookupAssoc code.files "app/page.tsx" with
  | none => .error "Missing app/page.tsx"
  | some pageCode =>
    if pageCode = "" then .error "Missing app/page.tsx"
    else if ¬ strIncludes pageCode "export default"
            ∧ ¬ strIncludes pageCode "export default function" then
      .error "page.tsx must have a default export"
    else .ok ()

theorem isPrefixOf_append_left {α} [DecidableEq α] (l₁ l₂ xs : List α)
    (h : (l₁ ++ l₂).isPrefixOf xs = true) : l₁.isPrefixOf xs = true := by
  induction l₁ generalizing xs with
  | nil => simp [List.isPrefixOf]
  | cons a t ih =>
    cases xs with
    | nil => simp [List.isPrefixOf] at h
    | cons b ys =>
      simp only [List.cons_append, List.isPrefixOf, Bool.and_eq_true] at h ⊢
      exact ⟨h.1, ih ys h.2⟩

theorem strIncludes_mono_fn (c : String) :
    strIncludes c "export default function" = true →
    strIncludes c "export default" = true := by
  intro h
  simp only [strIncludes, List.any_eq_true] at h ⊢
  obtain ⟨i, hi, hpre⟩ := h
  refine ⟨i, hi, ?_⟩
  have heq : "export default function".toList = "export default".toList ++ " function".toList := by
    decide
  rw [heq] at hpre
  exact isPrefixOf_append_left _ _ _ hpre

/-- `validateCode` succeeds iff `app/page.tsx` is present, non-empty and
contains `export default`. -/
theorem validateCode_ok_iff (files : List (String × String)) :
    validateCode ⟨files⟩ = .ok () ↔
      ∃ c, lookupAssoc files "app/page.tsx" = some c ∧ c ≠ "" ∧
        strIncludes c "export default" = true := by
  unfold validateCode
  cases hl : lookupAssoc files "app/page.tsx" with
  | none => simp
  | some c =>
    by_cases hc : c = ""
    · simp [hc]
    · by_cases hinc : strIncludes c "export default" = true
      · simp [hc, hinc]
      · have hfn : ¬ strIncludes c "export default function" = true :=
          fun h => hinc (strIncludes_mono_fn c h)
        simp [hc, hinc, hfn]

/-! ## Workspace materialization (`docker-runtime.js`, `prepareWorkspace`)

For each `[filePath, content]` of `Object.entries(code.files)` the code
computes `fullPath = path.join(dir, filePath)`, `mkdir -p`s its parent
and writes the content at `fullPath`.  **No path-safety check of any
kind is performed** — the repository contains no `UnsafePathError` and
no rejection of `..`, absolute or symlink paths. -/

/-- One step of POSIX path normalization: `path.join` drops empty and
`.` segments and resolves `..` against the segment stack. -/
def normStep (acc : List String) (seg : String) : List String :=
  if seg = "" ∨ seg = "." then acc
  else if seg = ".." then acc.dropLast
  else acc ++ [seg]

/-- Split a character list at `'/'`. -/
def splitSlashAux : List Char → List Char → List String
  | [], acc => [String.mk acc.reverse]
  | c :: rest, acc =>
    if c = '/' then String.mk acc.reverse :: splitSlashAux rest []
    else splitSlashAux rest (c :: acc)

/-- Split a string into its `'/'`-separated segments. -/
def splitSlash (s : String) : List String := splitSlashAux s.toList []

/-- Join segments with `'/'`. -/
def joinSegs : List String → String
  | [] => ""
  | [s] => s
  | s :: rest => s ++ "/" ++ joinSegs rest

/-- Node's `path.join(base, rel)` for an absolute `base`. -/
def pathJoin (base rel : String) : String :=
  "/" ++ joinSegs ((splitSlash (base ++ "/" ++ rel)).foldl normStep [])

/-- The file writes performed by `prepareWorkspace dir code` (after the
template copy): each overlay entry is written at `path.join(dir, filePath)`,
unconditionally. -/
def prepareWorkspaceWrites (dir : String) (files : List (String × String)) :
    List (String × String) :=
  files.map (fun kv => (pathJoin dir kv.1, kv.2))

/-- `pre` is a leading substring of `hay`. -/
def strStarts (hay pre : String) : Bool :=
  pre.toList.isPrefixOf hay.toList

/-! ## Container host configurations (`docker-runtime.js`)

`buildPhase` and `runPhase` pass literal `HostConfig` objects to
`docker.createContainer`; fields absent from the object are `none`. -/

structure HostConfig where
  memory : Nat
  nanoCpus : Nat
  networkMode : String
  binds : List String
  autoRemove : Bool
  pidsLimit : Option Nat
  securityOpt : List String
  capDrop : List String
deriving DecidableEq, Repr

/-- The Docker network name (`NETWORK_NAME` in `docker-runtime.js`). -/
def NETWORK_NAME : String := "llm-arena-network"

/-- `HostConfig` of the build container (`buildPhase`): 4 GiB memory,
2e9 NanoCpus, bridge network, read-write workspace bind.  The object
sets **no `PidsLimit`**, no `SecurityOpt` and no `CapDrop`. -/
def buildHostConfig (workspaceDir : String) : HostConfig :=
  { memory := 4 * 1024 * 1024 * 1024
    nanoCpus := 2 * 1000000000
    networkMode := "bridge"
    binds := [workspaceDir ++ ":/workspace:rw"]
    autoRemove := false
    pidsLimit := none
    securityOpt := []
    capDrop := [] }

/-- `HostConfig` of the runtime container (`runPhase`): 2 GiB memory,
1e9 NanoCpus, the arena network, read-only workspace bind, 512-PID
limit, `no-new-privileges`, all capabilities dropped. -/
def runHostConfig (workspaceDir : String) : HostConfig :=
  { memory := 2 * 1024 * 1024 * 1024
    nanoCpus := 1000000000
    networkMode := NETWORK_NAME
    binds := [workspaceDir ++ ":/workspace:ro"]
    autoRemove := false
    pidsLimit := some 512
    securityOpt := ["no-new-privileges:true"]
    capDrop := ["ALL"] }

/-! ## Health probing (`run-manager.ts`, `waitForHealthyUrl`)

`for (i = 0; i < maxAttempts; i++) { fetch(url, timeout 5000); if
(response.ok) return true; sleep(2000) }` — a thrown fetch error or a
non-2xx response falls through to the next attempt. -/

/-- Outcome of one `fetch` of the internal URL. -/
inductive ProbeOutcome where
  | fetchError
  | response (status : Nat)
deriving DecidableEq, Repr

/-- `response.ok` (2xx) for a successful fetch; a thrown error is a miss. -/
def ProbeOutcome.ok : ProbeOutcome → Bool
  | .fetchError => false
  | .response s => decide (200 ≤ s ∧ s < 300)

/-- `AbortSignal.timeout(5000)`: per-attempt timeout in milliseconds. -/
def healthTimeoutMs : Nat := 5000

/-- `setTimeout(resolve, 2000)`: inter-attempt interval in milliseconds. -/
def healthIntervalMs : Nat := 2000

/-- `waitForHealthyUrl(url, 30)`: the attempt budget. -/
def maxHealthAttempts : Nat := 30

/-- The probe loop of `waitForHealthyUrl`, by remaining fuel: attempt
`i`, return `true` on the first 2xx, give up when the fuel runs out. -/
def waitLoop (probe : Nat → ProbeOutcome) : Nat → Nat → Bool
  | _, 0 => false
  | i, fuel + 1 => if (probe i).ok then true else waitLoop probe (i + 1) fuel

/-- `RunManager.waitForHealthyUrl`. -/
def waitForHealthyUrl (probe : Nat → ProbeOutcome) (maxAttempts : Nat) : Bool :=
  waitLoop probe 0 maxAttempts

theorem waitLoop_true_iff (probe : Nat → ProbeOutcome) (start fuel : Nat) :
    waitLoop probe start fuel = true ↔ ∃ j, j < fuel ∧ (probe (start + j)).ok = true := by
  induction fuel generalizing start with
  | zero => simp [waitLoop]
  | succ n ih =>
    rw [waitLoop]
    by_cases h : (probe start).ok = true
    · rw [if_pos h]
      simp only [true_iff]
      exact ⟨0, Nat.succ_pos _, by simpa using h⟩
    · rw [if_neg h, ih]
      constructor
      · rintro ⟨j, hj, hja⟩
        exact ⟨j + 1, by omega, by simpa [Nat.add_comm, Nat.add_assoc, Nat.add_left_comm] using hja⟩
      · rintro ⟨j, hj, hja⟩
        cases j with
        | zero => simp at hja; exact absurd hja h
        | succ k =>
          exact ⟨k, by omega, by simpa [Nat.add_comm, Nat.add_assoc, Nat.add_left_comm] using hja⟩

theorem waitForHealthyUrl_true_iff (probe : Nat → ProbeOutcome) (n : Nat) :
    waitForHealthyUrl probe n = true ↔ ∃ j, j < n ∧ (probe j).ok = true := by
  simpa using waitLoop_true_iff probe 0 n

/-! ## Run lifecycle engine (`run-manager.ts` + express surface `index.js`)

`processRun` drives one run.  External outcomes (the LLM call, the two
Docker phases, the health probes) are drawn from an `Oracle`; the calls
the engine makes to its collaborators are reified as a trace of
`Action`s and folded into a per-run `SysState`.  Status updates are
HTTP PATCHes to the main app's store; the model treats every PATCH as
delivered.  Docker engine I/O failures during cleanup are not modelled
(cleanup calls succeed). -/

/-- Payload of one `PATCH /api/runs/:id` issued by `updateRun` /
`updateRunStatus` (only the fields the engine ever sends). -/
structure RunPatch where
  status : RunStatus
  startedAt : Bool := false
  completedAt : Bool := false
  error : Option String := none
  containerId : Option String := none
  internalUrl : Option String := none
deriving DecidableEq, Repr

/-- One collaborator call made by the engine (or inside
`DockerRuntime.createRun` on its behalf). -/
inductive Action where
  /-- `axios.patch(mainAppUrl + '/api/runs/' + runId, updates)` -/
  | patchRun (p : RunPatch)
  /-- `prepareWorkspace`: workspace directory created and populated -/
  | wsCreate
  /-- `cleanupWorkspace`: `rm -rf` of the workspace directory -/
  | wsDelete
  /-- `containers.set(runId, …)` after a successful `runPhase` -/
  | track (containerId : String)
  /-- `gatewayRegistry.registerUrl(runId, url)` -/
  | registerGateway (url : String)
  /-- `gatewayRegistry.unregister(runId)` -/
  | unregisterGateway
  /-- `dockerRuntime.killRun(runId)`: stop/kill/remove the tracked
  container, delete the workspace, untrack; a no-op when untracked -/
  | dockerKill
  /-- `portAllocator.release(p)` — the `PortAllocator` exists in the
  codebase but **no engine code path ever calls it**; the constructor is
  present so that claims about port release are statable -/
  | portRelease (p : Nat)
deriving DecidableEq, Repr

/-- `true` exactly on `portRelease` actions. -/
def Action.isPortRelease : Action → Bool
  | .portRelease _ => true
  | _ => false

/-- `true` exactly on `unregisterGateway` actions. -/
def Action.isUnregister : Action → Bool
  | .unregisterGateway => true
  | _ => false

/-- Observable orchestrator state for one run: the run record held by
the main app's store, plus the run's gateway entry, container tracking
and workspace directory. -/
structure SysState where
  status : RunStatus := .queued
  startedAt : Bool := false
  completedAt : Bool := false
  error : Option String := none
  containerId : Option String := none
  internalUrl : Option String := none
  registeredUrl : Option String := none
  tracked : Bool := false
  workspace : Bool := false
deriving DecidableEq, Repr

/-- The store's merge of one PATCH (`store.updateRun` merges the partial
record over the existing one). -/
def applyPatch (s : SysState) (p : RunPatch) : SysState :=
  { s with
    status := p.status
    startedAt := s.startedAt || p.startedAt
    completedAt := s.completedAt || p.completedAt
    error := p.error.orElse (fun _ => s.error)
    containerId := (p.containerId).orElse (fun _ => s.containerId)
    internalUrl := (p.internalUrl).orElse (fun _ => s.internalUrl) }

/-- Effect of one engine action on the observable state. -/
def applyAction (s : SysState) : Action → SysState
  | .patchRun p => applyPatch s p
  | .wsCreate => { s with workspace := true }
  | .wsDelete => { s with workspace := false }
  | .track _ => { s with tracked := true }
  | .registerGateway u => { s with registeredUrl := some u }
  | .unregisterGateway => { s with registeredUrl := none }
  | .dockerKill => if s.tracked then { s with tracked := false, workspace := false } else s
  | .portRelease _ => s

/-- Fold a trace of actions over a state. -/
def applyTrace (s : SysState) (tr : List Action) : SysState :=
  tr.foldl applyAction s

/-- The states at every observable point along a trace (before the
first action, between any two actions, and after the last). -/
def statesAlong (s : SysState) (tr : List Action) : List SysState :=
  tr.scanl applyAction s

/-- Outcomes of the external calls made while processing one run. -/
structure Oracle where
  /-- `llmClient.generateCode(prompt, provider, model)`: the `{files}`
  map, or a thrown error message -/
  gen : Except String (List (String × String))
  /-- exit code of the build container (`buildPhase` throws on ≠ 0) -/
  buildExit : Nat
  /-- `runPhase`: the started container's id and assigned host port, or
  a thrown error message -/
  runStart : Except String (String × Nat)
  /-- outcome of the `i`-th health probe -/
  probes : Nat → ProbeOutcome

/-- The `catch` block of `processRun`: PATCH `failed` with the error
message and `completedAt`, then `dockerRuntime.killRun`. -/
def failActions (e : String) : List Action :=
  [.patchRun { status := .failed, error := some e, completedAt := true }, .dockerKill]

/-- `RunManager.processRun`, as the trace of collaborator calls it makes
under the outcomes of `o`.  Mirrors the source order: PATCH `generating`
(with `startedAt`) → generate → validate → PATCH `installing` →
`createRun` (prepare workspace, build phase, run phase, track) → PATCH
`starting` (with container id and `http://localhost:<hostPort>`) →
health loop → PATCH `healthy` → `registerUrl` → PATCH `ready` (with
`completedAt`); any throw lands in `failActions`. -/
def runProcess (o : Oracle) : List Action :=
  let t0 := [Action.patchRun { status := .generating, startedAt := true }]
  match o.gen with
  | .error e => t0 ++ failActions e
  | .ok files =>
    match validateCode ⟨files⟩ with
    | .error e => t0 ++ failActions e
    | .ok _ =>
      let t1 := t0 ++ [Action.patchRun { status := .installing }, Action.wsCreate]
      if o.buildExit ≠ 0 then
        t1 ++ [Action.wsDelete] ++
          failActions ("Build failed with exit code " ++ toString o.buildExit)
      else
        match o.runStart with
        | .error e => t1 ++ [Action.wsDelete] ++ failActions e
        | .ok (cid, hostPort) =>
          let url := "http://localhost:" ++ toString hostPort
          let t2 := t1 ++ [Action.track cid,
            Action.patchRun { status := .starting, containerId := some cid,
                              internalUrl := some url }]
          if waitForHealthyUrl o.probes maxHealthAttempts then
            t2 ++ [Action.patchRun { status := .healthy },
                   Action.registerGateway url,
                   Action.patchRun { status := .ready, completedAt := true }]
          else
            t2 ++ failActions "Server failed health check after 30 attempts"

/-- Initial state of a fresh run (`queued`, no resources). -/
def initState : SysState := {}

/-- Final state of `processRun` started from `s`. -/
def finalFrom (s : SysState) (o : Oracle) : SysState :=
  applyTrace s (runProcess o)

/-- Final state of `processRun` on a fresh run. -/
def finalO (o : Oracle) : SysState :=
  finalFrom initState o

/-- The run-id → URL view the `/gateway/resolve/:runId` endpoint has of
a single run's state (`resolve` returns the stored URL unless it is
falsy, i.e. absent or empty). -/
def resolveRun (s : SysState) : Option String :=
  match s.registeredUrl with
  | some u => if u = "" then none else some u
  | none => none

/-- `dockerRuntime.killRun` as a state transformer: stop + remove the
tracked container and delete the workspace; early-return when the run's
container is not tracked. -/
def dockerKillState (s : SysState) : SysState :=
  if s.tracked then { s with tracked := false, workspace := false } else s

/-- `DELETE /api/runs/:runId`: `runManager.killRun` (docker kill, then
PATCH `terminated`) followed by `gatewayRegistry.unregister`; replies
`{success: true}`. -/
def killEndpoint (s : SysState) : Bool × SysState :=
  let s1 := dockerKillState s
  let s2 := applyPatch s1 { status := .terminated }
  (true, { s2 with registeredUrl := none })

/-- A run is fresh when it holds no resources: `processRun` is invoked
once per newly created run (or on re-start of a fully cleaned-up run). -/
def freshRun (s : SysState) : Prop :=
  s.tracked = false ∧ s.registeredUrl = none ∧ s.workspace = false

/-- Quiescent states of one run: the initial state, `processRun` run to
completion on a fresh run, and the kill endpoint. -/
inductive Reachable : SysState → Prop where
  | init : Reachable initState
  | proc (o : Oracle) {s : SysState} : Reachable s → freshRun s →
      Reachable (finalFrom s o)
  | kill {s : SysState} : Reachable s → Reachable (killEndpoint s).2

/-! ### Characterization of `processRun`'s final state -/

theorem finalFrom_spec (s : SysState) (o : Oracle)
    (hT : s.tracked = false) (hR : s.registeredUrl = none) (hW : s.workspace = false) :
    (∃ cid port,
        o.runStart = .ok (cid, port) ∧
        waitForHealthyUrl o.probes maxHealthAttempts = true ∧
        (finalFrom s o).status = .ready ∧
        (finalFrom s o).tracked = true ∧
        (finalFrom s o).workspace = true ∧
        (finalFrom s o).registeredUrl = some ("http://localhost:" ++ toString port) ∧
        (finalFrom s o).completedAt = true)
    ∨ ((finalFrom s o).status = .failed ∧
       (finalFrom s o).tracked = false ∧
       (finalFrom s o).workspace = false ∧
       (finalFrom s o).registeredUrl = none ∧
       (finalFrom s o).completedAt = true ∧
       ∃ e, (finalFrom s o).error = some e) := by
  obtain ⟨gen, buildExit, runStart, probes⟩ := o
  cases gen with
  | error e =>
    right
    simp [finalFrom, runProcess, applyTrace, failActions, applyAction, applyPatch, hT, hR, hW]
  | ok files =>
    cases hv : validateCode ⟨files⟩ with
    | error e =>
      right
      simp [finalFrom, runProcess, hv, applyTrace, failActions, applyAction, applyPatch, hT, hR, hW]
    | ok u =>
      by_cases hbe : buildExit = 0
      · cases runStart with
        | error e =>
          right
          simp [finalFrom, runProcess, hv, hbe, applyTrace, failActions, applyAction,
            applyPatch, hT, hR, hW]
        | ok cp =>
          obtain ⟨cid, hostPort⟩ := cp
          by_cases hh : waitForHealthyUrl probes maxHealthAttempts = true
          · left
            refine ⟨cid, hostPort, rfl, hh, ?_⟩
            simp [finalFrom, runProcess, hv, hbe, hh, applyTrace, applyAction, applyPatch,
              hT, hR, hW]
          · rw [Bool.not_eq_true] at hh
            right
            simp [finalFrom, runProcess, hv, hbe, hh, applyTrace, failActions, applyAction,
              applyPatch, hT, hR, hW]
      · right
        simp [finalFrom, runProcess, hv, hbe, applyTrace, failActions, applyAction,
          applyPatch, hT, hR, hW]

theorem runProcess_failed_shape (o : Oracle) (hfail : (finalO o).status = .failed) :
    ∃ e, (finalO o).error = some e ∧
      (runProcess o).drop ((runProcess o).length - 2) = failActions e := by
  obtain ⟨gen, buildExit, runStart, probes⟩ := o
  cases gen with
  | error e =>
    refine ⟨e, ?_, ?_⟩
    · simp [finalO, initState, finalFrom, runProcess, applyTrace, failActions,
        applyAction, applyPatch, Option.orElse]
    · simp [runProcess, failActions]
  | ok files =>
    cases hv : validateCode ⟨files⟩ with
    | error e =>
      refine ⟨e, ?_, ?_⟩
      · simp [finalO, initState, finalFrom, runProcess, hv, applyTrace, failActions,
          applyAction, applyPatch, Option.orElse]
      · simp [runProcess, hv, failActions]
    | ok u =>
      by_cases hbe : buildExit = 0
      · cases runStart with
        | error e =>
          refine ⟨e, ?_, ?_⟩
          · simp [finalO, initState, finalFrom, runProcess, hv, hbe, applyTrace,
              failActions, applyAction, applyPatch, Option.orElse]
          · simp [runProcess, hv, hbe, failActions]
        | ok cp =>
          obtain ⟨cid, hostPort⟩ := cp
          by_cases hh : waitForHealthyUrl probes maxHealthAttempts = true
          · exfalso
            simp [finalO, initState, finalFrom, runProcess, hv, hbe, hh, applyTrace,
              applyAction, applyPatch] at hfail
          · rw [Bool.not_eq_true] at hh
            refine ⟨"Server failed health check after 30 attempts", ?_, ?_⟩
            · simp [finalO, initState, finalFrom, runProcess, hv, hbe, hh, applyTrace,
                failActions, applyAction, applyPatch, Option.orElse]
            · simp [runProcess, hv, hbe, hh, failActions]
      · refine ⟨"Build failed with exit code " ++ toString buildExit, ?_, ?_⟩
        · simp [finalO, initState, finalFrom, runProcess, hv, hbe, applyTrace,
            failActions, applyAction, applyPatch, Option.orElse]
        · simp [runProcess, hv, hbe, failActions]

theorem runProcess_no_unregister_release (o : Oracle) :
    (runProcess o).all (fun a => !a.isUnregister && !a.isPortRelease) = true := by
  obtain ⟨gen, buildExit, runStart, probes⟩ := o
  cases gen with
  | error e =>
    simp [runProcess, failActions, Action.isUnregister, Action.isPortRelease]
  | ok files =>
    cases hv : validateCode ⟨files⟩ with
    | error e =>
      simp [runProcess, hv, failActions, Action.isUnregister, Action.isPortRelease]
    | ok u =>
      by_cases hbe : buildExit = 0
      · cases runStart with
        | error e =>
          simp [runProcess, hv, hbe, failActions, Action.isUnregister, Action.isPortRelease]
        | ok cp =>
          obtain ⟨cid, hostPort⟩ := cp
          by_cases hh : waitForHealthyUrl probes maxHealthAttempts = true
          · simp [runProcess, hv, hbe, hh, failActions, Action.isUnregister,
              Action.isPortRelease]
          · rw [Bool.not_eq_true] at hh
            simp [runProcess, hv, hbe, hh, failActions, Action.isUnregister,
              Action.isPortRelease]
      · simp [runProcess, hv, hbe, failActions, Action.isUnregister, Action.isPortRelease]

theorem internalUrl_ne_empty (p : Nat) : "http://localhost:" ++ toString p ≠ "" := by
  intro h
  have hlen := congrArg String.length h
  rw [String.length_append] at hlen
  rw [show ("http://localhost:" : String).length = 17 from rfl] at hlen
  rw [show ("" : String).length = 0 from rfl] at hlen
  omega

/-- The invariant tying a single run's gateway entry, container tracking
and workspace directory to its status at quiescent points. -/
def Inv (s : SysState) : Prop :=
  (∀ u, s.registeredUrl = some u → u ≠ "") ∧
  (s.registeredUrl.isSome = true ↔ s.status = .ready) ∧
  (s.registeredUrl.isSome = true → s.tracked = true) ∧
  (s.status.isTerminal = true → s.tracked = false ∧ s.workspace = false) ∧
  (s.workspace = true → s.tracked = true)

theorem reachable_inv {s : SysState} (h : Reachable s) : Inv s := by
  induction h with
  | init =>
    refine ⟨?_, ?_, ?_, ?_, ?_⟩ <;> simp [initState, RunStatus.isTerminal]
  | proc o hr hfresh ih =>
    obtain ⟨hT, hR, hW⟩ := hfresh
    rcases finalFrom_spec _ o hT hR hW with
      ⟨cid, port, _, _, hst, htr, hws, hreg, _⟩ | ⟨hst, htr, hws, hreg, _, _⟩
    · refine ⟨?_, ?_, ?_, ?_, ?_⟩
      · intro u hu
        rw [hreg] at hu
        cases hu
        exact internalUrl_ne_empty port
      · simp [hreg, hst]
      · intro _; exact htr
      · intro hterm; rw [hst] at hterm; simp [RunStatus.isTerminal] at hterm
      · intro _; exact htr
    · refine ⟨?_, ?_, ?_, ?_, ?_⟩
      · intro u hu; rw [hreg] at hu; cases hu
      · simp [hreg, hst]
      · intro hu; rw [hreg] at hu; simp at hu
      · intro _; exact ⟨htr, hws⟩
      · intro hw; rw [hws] at hw; cases hw
  | @kill s' hr ih =>
    obtain ⟨ih1, ih2, ih3, ih4, ih5⟩ := ih
    have htracked : (killEndpoint s').2.tracked = false := by
      by_cases ht : s'.tracked = true <;>
        simp [killEndpoint, applyPatch, dockerKillState, ht]
    have hws : (killEndpoint s').2.workspace = false := by
      by_cases ht : s'.tracked = true
      · simp [killEndpoint, applyPatch, dockerKillState, ht]
      · have hw : s'.workspace = false := by
          rcases Bool.eq_false_or_eq_true s'.workspace with h' | h'
          · exact absurd (ih5 h') ht
          · exact h'
        simp [killEndpoint, applyPatch, dockerKillState, ht, hw]
    refine ⟨?_, ?_, ?_, ?_, ?_⟩
    · intro u hu
      simp [killEndpoint, applyPatch] at hu
    · simp [killEndpoint, applyPatch]
    · intro hu
      simp [killEndpoint, applyPatch] at hu
    · intro _
      exact ⟨htracked, hws⟩
    · intro hw
      rw [hws] at hw
      cases hw

/-! ## Session creation (`src/app/api/sessions/route.ts`)

`createSessionSchema` (zod): `prompt` a string of at least 10
characters, `models` an array of 1–6 objects whose `provider` is one of
the six recognized enum values (`model` is an unconstrained string).
On `safeParse` failure the handler replies 400 before ever touching the
store; on success it calls `store.createSession(prompt, models)` and
replies 200. -/

/-- The providers of `z.enum([...])` (also `ModelProvider` in
`src/types/index.ts`). -/
def allowedProviders : List String :=
  ["openai", "anthropic", "google", "xai", "meta", "deepseek"]

/-- One entry of the request's `models` array. -/
structure ModelChoice where
  provider : String
  model : String
deriving DecidableEq, Repr

/-- A parsed `POST /api/sessions` request body. -/
structure CreateSessionBody where
  prompt : String
  models : List ModelChoice
deriving DecidableEq, Repr

/-- `createSessionSchema.safeParse(body).success`. -/
def createSessionSchemaCheck (b : CreateSessionBody) : Bool :=
  decide (10 ≤ b.prompt.length) &&
  b.models.all (fun m => allowedProviders.contains m.provider) &&
  decide (1 ≤ b.models.length) && decide (b.models.length ≤ 6)

/-- A run record as created by `Store.createSession` in `lib/store`
(`src/unnamed/part_006`): fresh id, parent session id, the (provider,
model) pair and initial status `"queued"`.  The `createdAt`/`updatedAt`
timestamps are wall-clock values outside the model. -/
structure StoredRun where
  id : String
  sessionId : String
  provider : String
  model : String
  status : RunStatus
deriving DecidableEq, Repr

/-- A session record held by the store: id, prompt, and its runs. -/
structure StoredSession where
  id : String
  prompt : String
  runs : List StoredRun
deriving DecidableEq, Repr

/-- The in-memory `Store` of `lib/store` (`src/unnamed/part_006`): a
sessions map and a runs map, both insertion-ordered. -/
structure Store where
  sessions : List StoredSession
  runs : List StoredRun
deriving DecidableEq, Repr

/-- The `models.map(...)` of `Store.createSession`: one run per
(provider, model) pair — fresh `nanoid()` id (`runId i`), parent
session id, status `"queued"`. -/
def sessionRunsOf (sid : String) (runId : Nat → String) (b : CreateSessionBody) :
    List StoredRun :=
  b.models.mapIdx (fun i m =>
    ({ id := runId i, sessionId := sid, provider := m.provider, model := m.model,
       status := RunStatus.queued } : StoredRun))

/-- `Store.createSession(prompt, models)` (`src/unnamed/part_006`):
maps over `models` creating one `queued` run per (provider, model)
pair, inserting each into the runs map, then inserts the session
(holding those runs) into the sessions map and returns it.  `sid` and
`runId i` stand for the `nanoid()` outputs. -/
def storeCreateSession (st : Store) (sid : String) (runId : Nat → String)
    (b : CreateSessionBody) : StoredSession × Store :=
  let runs := sessionRunsOf sid runId b
  let session : StoredSession := { id := sid, prompt := b.prompt, runs := runs }
  (session, { sessions := st.sessions ++ [session], runs := st.runs ++ runs })

/-- The `POST /api/sessions` handler: HTTP status and resulting store
(on `safeParse` failure it replies 400 before touching the store). -/
def sessionsPOST (st : Store) (sid : String) (runId : Nat → String)
    (b : CreateSessionBody) : Nat × Store :=
  if createSessionSchemaCheck b then (200, (storeCreateSession st sid runId b).2)
  else (400, st)

/-! ## Concrete fixtures used by witnesses and counterexamples -/

/-- A minimal page module accepted by `validateCode`. -/
def pageOkSrc : String := "export default function Page() { return null }"

/-- A generated file set holding only `app/page.tsx` (exactly what the
active LLM client produces; no `package.json`). -/
def filesPageOnly : List (String × String) := [("app/page.tsx", pageOkSrc)]

/-- Outcomes of a run whose code-generation call throws. -/
def oGenFail : Oracle :=
  { gen := .error "LLM call failed", buildExit := 0, runStart := .error "unused",
    probes := fun _ => .fetchError }

/-- Outcomes of a run whose container starts but never serves HTTP. -/
def oHealthFail : Oracle :=
  { gen := .ok filesPageOnly, buildExit := 0, runStart := .ok ("cid-1", 39000),
    probes := fun _ => .fetchError }

/-- Outcomes of a fully successful run. -/
def oHappy : Oracle :=
  { gen := .ok filesPageOnly, buildExit := 0, runStart := .ok ("cid-2", 32768),
    probes := fun _ => .response 200 }

/-- A successful run whose generated file set has no manifest at all. -/
def oManifestFree : Oracle :=
  { gen := .ok filesPageOnly, buildExit := 0, runStart := .ok ("cid-3", 35001),
    probes := fun _ => .response 200 }

/-- A run whose generation returns an empty file set. -/
def oNoPage : Oracle :=
  { gen := .ok [], buildExit := 0, runStart := .error "unused",
    probes := fun _ => .fetchError }

/-- The default allocator (`PORT_RANGE` 3001–4000), empty. -/
def paInit : PortAllocator := ⟨3001, 4000, ∅⟩

/-! ## Claims -/

/-- **C7.** For every allocator state, `allocate()` returns the lowest
port in `[minPort, maxPort]` not currently allocated and marks it
allocated; it fails with the exhaustion error (`'No available ports'`,
the spec's `ExhaustedError`) exactly when every port of the range is
allocated; `release(p)` is idempotent; and allocating a port then
releasing it returns the allocator to its prior state. -/
theorem claim7_port_allocator (a : PortAllocator) :
    (∀ p a', a.allocate = .ok (p, a') →
        a.minPort ≤ p ∧ p ≤ a.maxPort ∧ p ∉ a.usedPorts ∧
        (∀ q, a.minPort ≤ q → q < p → q ∈ a.usedPorts) ∧
        a'.usedPorts = insert p a.usedPorts ∧ a'.release p = a) ∧
    (a.allocate = .error "No available ports" ↔
      ∀ q, a.minPort ≤ q → q ≤ a.maxPort → q ∈ a.usedPorts) ∧
    (∀ p, (a.release p).release p = a.release p) := by
  refine ⟨?_, ?_, ?_⟩
  · intro p a' h
    unfold PortAllocator.allocate at h
    cases hscan : allocScan a.usedPorts a.minPort (a.maxPort + 1 - a.minPort) with
    | none => rw [hscan] at h; cases h
    | some q =>
      rw [hscan] at h
      injection h with h2
      have hpq : q = p := congrArg Prod.fst h2
      have ha' : ({ a with usedPorts := insert q a.usedPorts } : PortAllocator) = a' :=
        congrArg Prod.snd h2
      subst hpq
      subst ha'
      obtain ⟨hnotin, hge, hlt, hbelow⟩ := allocScan_some hscan
      refine ⟨hge, by omega, hnotin, hbelow, rfl, ?_⟩
      unfold PortAllocator.release
      simp [Finset.erase_insert hnotin]
  · constructor
    · intro h q hq1 hq2
      cases hscan : allocScan a.usedPorts a.minPort (a.maxPort + 1 - a.minPort) with
      | none => exact allocScan_none hscan q hq1 (by omega)
      | some r =>
        unfold PortAllocator.allocate at h
        rw [hscan] at h
        cases h
    · intro hall
      unfold PortAllocator.allocate
      rw [allocScan_exhaust fun q hq1 hq2 => hall q hq1 (by omega)]
  · intro p
    unfold PortAllocator.release
    simp

/-- **C7 witness.** On the fresh default allocator, `allocate()` yields
3001 and releasing it restores the initial state. -/
theorem claim7_witness :
    paInit.allocate = .ok (3001, ⟨3001, 4000, {3001}⟩) ∧
    (⟨3001, 4000, {3001}⟩ : PortAllocator).release 3001 = paInit := by
  have h : paInit.allocate = .ok (3001, ⟨3001, 4000, {3001}⟩) := rfl
  exact ⟨h, ((claim7_port_allocator paInit).1 3001 _ h).2.2.2.2.2⟩

/-- **C10.** Registering a run id with the empty string as URL makes
`resolve` return `none` — exactly as after `unregister` — and
`register(id, u)` followed by `resolve(id)` returns `u` iff `u` is
non-empty (JavaScript `get(runId) || null` treats `""` as falsy). -/
theorem claim10_empty_url_resolve (r : GatewayRegistry) (id u : String) :
    ((r.registerUrl id "").resolve id = none) ∧
    ((r.registerUrl id "").resolve id = (r.unregister id).resolve id) ∧
    ((r.registerUrl id u).resolve id = some u ↔ u ≠ "") := by
  have hres : ∀ v, (r.registerUrl id v).resolve id = if v = "" then none else some v := by
    intro v
    unfold GatewayRegistry.registerUrl GatewayRegistry.resolve
    simp [lookupAssoc]
  have hunreg : (r.unregister id).resolve id = none := by
    unfold GatewayRegistry.unregister GatewayRegistry.resolve
    rw [lookupAssoc_filter_ne]
  refine ⟨by simp [hres], by simp [hres, hunreg], ?_⟩
  rw [hres u]
  by_cases hu : u = "" <;> simp [hu]

/-- **C9 support.** The zod schema accepts a body iff the prompt has at
least 10 characters, there are 1–6 model entries and every provider is
among the six recognized ones. -/
theorem createSessionSchemaCheck_iff (b : CreateSessionBody) :
    createSessionSchemaCheck b = true ↔
      (10 ≤ b.prompt.length ∧ 1 ≤ b.models.length ∧ b.models.length ≤ 6 ∧
        ∀ m ∈ b.models, m.provider ∈ allowedProviders) := by
  unfold createSessionSchemaCheck
  simp only [Bool.and_eq_true, decide_eq_true_eq, List.all_eq_true]
  constructor
  · rintro ⟨⟨⟨h1, h2⟩, h3⟩, h4⟩
    exact ⟨h1, h3, h4, fun m hm => by simpa using h2 m hm⟩
  · rintro ⟨h1, h2, h3, h4⟩
    exact ⟨⟨⟨h1, fun m hm => by simpa using h4 m hm⟩, h2⟩, h3⟩

/-- **C9.** `POST /api/sessions` replies 200 exactly on bodies with 1–6
provider/model pairs over the recognized providers and a prompt of at
least 10 characters; on any other body it replies 400 and the store is
untouched (no session, no runs); on acceptance it creates the session
and one fresh `queued` run per model pair. -/
theorem claim9_session_validation (st : Store) (sid : String)
    (runId : Nat → String) (b : CreateSessionBody) :
    ((sessionsPOST st sid runId b).1 = 200 ↔
      (10 ≤ b.prompt.length ∧ 1 ≤ b.models.length ∧ b.models.length ≤ 6 ∧
        ∀ m ∈ b.models, m.provider ∈ allowedProviders)) ∧
    ((sessionsPOST st sid runId b).1 ≠ 200 →
      (sessionsPOST st sid runId b).1 = 400 ∧ (sessionsPOST st sid runId b).2 = st) ∧
    ((sessionsPOST st sid runId b).1 = 200 →
      (sessionsPOST st sid runId b).2.sessions =
        st.sessions ++ [{ id := sid, prompt := b.prompt, runs := sessionRunsOf sid runId b }] ∧
      (sessionsPOST st sid runId b).2.runs = st.runs ++ sessionRunsOf sid runId b) := by
  by_cases hc : createSessionSchemaCheck b = true
  · refine ⟨?_, ?_, ?_⟩
    · rw [← createSessionSchemaCheck_iff]
      simp [sessionsPOST, hc]
    · intro hne
      exact absurd (by simp [sessionsPOST, hc]) hne
    · intro _
      exact ⟨by simp [sessionsPOST, hc, storeCreateSession],
             by simp [sessionsPOST, hc, storeCreateSession]⟩
  · refine ⟨?_, ?_, ?_⟩
    · rw [← createSessionSchemaCheck_iff]
      simp [sessionsPOST, hc]
    · intro _
      simp [sessionsPOST, hc]
    · intro h200
      rw [show (sessionsPOST st sid runId b).1 = 400 by simp [sessionsPOST, hc]] at h200
      cases h200

/-- A valid creation body: one openai model, 20-character prompt. -/
def sessionBodyW : CreateSessionBody :=
  { prompt := "build a landing page", models := [⟨"openai", "gpt-4o"⟩] }

/-- The empty store. -/
def storeEmpty : Store := ⟨[], []⟩

/-- **C9 witness.** A concrete valid body is accepted and creates
exactly one session with one fresh `queued` run. -/
theorem claim9_witness :
    (sessionsPOST storeEmpty "s1" (fun _ => "r1") sessionBodyW).2.sessions =
      [{ id := "s1", prompt := "build a landing page", runs := [{ id := "r1", sessionId := "s1", provider := "openai", model := "gpt-4o", status := RunStatus.queued }] }] :=
  (((claim9_session_validation storeEmpty "s1" (fun _ => "r1")
      sessionBodyW).2.2 (by decide)).1).trans (by decide)

/-- **C6 counterexample.** The build container's `HostConfig` sets no
PID limit at all, contradicting the claimed 512-PID limit for build
containers. -/
theorem claim6_cex :
    (buildHostConfig "/tmp/llm-arena-workspaces/run1").pidsLimit = none ∧
    (buildHostConfig "/tmp/llm-arena-workspaces/run1").pidsLimit ≠ some 512 := by
  exact ⟨rfl, by decide⟩

/-- **C6 (amended).** Build containers get 4 GiB memory, 2 CPU cores,
bridge networking and a read-write workspace mount, but **no PID
limit**; runtime containers get 2 GiB, 1 CPU core, a 512-PID limit, the
arena network only, a read-only workspace mount, all capabilities
dropped and `no-new-privileges`. -/
theorem claim6_container_limits (dir : String) :
    ((buildHostConfig dir).memory = 4 * 1024 * 1024 * 1024 ∧
     (buildHostConfig dir).nanoCpus = 2 * 1000000000 ∧
     (buildHostConfig dir).networkMode = "bridge" ∧
     (buildHostConfig dir).binds = [dir ++ ":/workspace:rw"] ∧
     (buildHostConfig dir).pidsLimit = none ∧
     (buildHostConfig dir).capDrop = [] ∧
     (buildHostConfig dir).securityOpt = []) ∧
    ((runHostConfig dir).memory = 2 * 1024 * 1024 * 1024 ∧
     (runHostConfig dir).nanoCpus = 1000000000 ∧
     (runHostConfig dir).pidsLimit = some 512 ∧
     (runHostConfig dir).networkMode = NETWORK_NAME ∧
     (runHostConfig dir).binds = [dir ++ ":/workspace:ro"] ∧
     (runHostConfig dir).capDrop = ["ALL"] ∧
     (runHostConfig dir).securityOpt = ["no-new-privileges:true"]) :=
  ⟨⟨rfl, rfl, rfl, rfl, rfl, rfl, rfl⟩, ⟨rfl, rfl, rfl, rfl, rfl, rfl, rfl⟩⟩

/-- **C5.** The health probe uses a 5000 ms per-attempt timeout, a
2000 ms interval and 30 attempts; a successful fetch satisfies iff its
status is 2xx and a thrown fetch is a miss; the loop succeeds iff some
attempt among the first 30 is a 2xx; if all 30 attempts miss the run
fails; and when the run reaches probing, any 2xx within the budget
takes it through `healthy` to `ready`. -/
theorem claim5_health_probe :
    healthTimeoutMs = 5000 ∧ healthIntervalMs = 2000 ∧ maxHealthAttempts = 30 ∧
    (∀ st, (ProbeOutcome.response st).ok = true ↔ 200 ≤ st ∧ st < 300) ∧
    ProbeOutcome.fetchError.ok = false ∧
    (∀ probe, waitForHealthyUrl probe maxHealthAttempts = true ↔
      ∃ j, j < 30 ∧ (probe j).ok = true) ∧
    (∀ o : Oracle, (∀ j, j < 30 → (o.probes j).ok = false) →
      (finalO o).status = .failed) ∧
    (∀ o : Oracle, ∀ files cid port, o.gen = .ok files →
      validateCode ⟨files⟩ = .ok () → o.buildExit = 0 → o.runStart = .ok (cid, port) →
      waitForHealthyUrl o.probes maxHealthAttempts = true →
      (finalO o).status = .ready ∧
      Action.patchRun { status := .healthy } ∈ runProcess o) := by
  refine ⟨rfl, rfl, rfl, ?_, rfl, ?_, ?_, ?_⟩
  · intro st
    simp [ProbeOutcome.ok]
  · intro probe
    simpa [maxHealthAttempts] using waitForHealthyUrl_true_iff probe 30
  · intro o hmiss
    rcases finalFrom_spec initState o rfl rfl rfl with
      ⟨cid, port, _, hh, _⟩ | ⟨hst, _⟩
    · obtain ⟨j, hj, hok⟩ := (waitForHealthyUrl_true_iff o.probes 30).mp hh
      rw [hmiss j hj] at hok
      cases hok
    · exact hst
  · intro o files cid port hg hv hbe hrs hh
    obtain ⟨gen, be, rs, pr⟩ := o
    simp only at hg hv hbe hrs hh
    subst hg
    subst hbe
    subst hrs
    constructor
    · simp [finalO, initState, finalFrom, runProcess, hv, hh, applyTrace, applyAction,
        applyPatch]
    · simp [runProcess, hv, hh]

/-- **C5 witness.** A run whose container never answers misses all 30
attempts and ends `failed`. -/
theorem claim5_witness : (finalO oHealthFail).status = .failed :=
  claim5_health_probe.2.2.2.2.2.2.1 oHealthFail (fun _ _ => rfl)

/-- **C1 counterexample.** A run that fails its health check ends
`failed`, yet the engine's collaborator-call trace contains **no**
gateway unregistration and **no** port release — the claimed full
failure sequence (which includes both) is not performed. -/
theorem claim1_cex :
    (finalO oHealthFail).status = RunStatus.failed ∧
    (runProcess oHealthFail).all (fun a => !a.isUnregister) = true ∧
    (runProcess oHealthFail).all (fun a => !a.isPortRelease) = true := by
  decide

/-- **C1 (amended).** On every failing run the engine PATCHes `failed`
with the error message and `completed_at`, then calls the runtime kill
(the trace ends with exactly these two calls): afterwards no container
is tracked, the workspace is gone and the run is not registered; but
the failure path never calls the gateway registry's `unregister` and
never calls the port allocator (the allocator has no call site in the
engine at all). -/
theorem claim1_failure_sequence (o : Oracle) (h : (finalO o).status = .failed) :
    (∃ e, (finalO o).error = some e ∧
        ∃ pre, runProcess o = pre ++ failActions e) ∧
    (finalO o).completedAt = true ∧
    (finalO o).tracked = false ∧
    (finalO o).workspace = false ∧
    (finalO o).registeredUrl = none ∧
    Action.dockerKill ∈ runProcess o ∧
    (runProcess o).all (fun a => !a.isUnregister && !a.isPortRelease) = true := by
  obtain ⟨e, he, hdrop⟩ := runProcess_failed_shape o h
  have hsplit : runProcess o =
      (runProcess o).take ((runProcess o).length - 2) ++ failActions e := by
    conv_lhs => rw [← List.take_append_drop ((runProcess o).length - 2) (runProcess o)]
    rw [hdrop]
  rcases finalFrom_spec initState o rfl rfl rfl with
    ⟨cid, port, _, _, hst, _⟩ | ⟨hst, htr, hws, hreg, hca, _⟩
  · exact absurd (h.symm.trans hst) (by decide)
  · refine ⟨⟨e, he, _, hsplit⟩, hca, htr, hws, hreg, ?_,
      runProcess_no_unregister_release o⟩
    rw [hsplit]
    exact List.mem_append_right _ (by simp [failActions])

/-- **C1 witness.** A run whose code-generation call throws runs the
amended failure sequence. -/
theorem claim1_witness :
    (finalO oGenFail).status = RunStatus.failed ∧
    ((∃ e, (finalO oGenFail).error = some e ∧
        ∃ pre, runProcess oGenFail = pre ++ failActions e) ∧
     (finalO oGenFail).completedAt = true ∧
     (finalO oGenFail).tracked = false ∧
     (finalO oGenFail).workspace = false ∧
     (finalO oGenFail).registeredUrl = none ∧
     Action.dockerKill ∈ runProcess oGenFail ∧
     (runProcess oGenFail).all (fun a => !a.isUnregister && !a.isPortRelease) = true) :=
  ⟨rfl, claim1_failure_sequence oGenFail rfl⟩

/-- **C2 counterexample.** On the happy path there is an observable
point — after `registerUrl` and before the `ready` PATCH is applied —
where the run is present in the Gateway Registry (and `resolve` returns
its URL) while its status is still `healthy`, not `ready`. -/
theorem claim2_cex :
    (applyTrace initState ((runProcess oHappy).take 7)).status = RunStatus.healthy ∧
    (applyTrace initState ((runProcess oHappy).take 7)).registeredUrl =
      some "http://localhost:32768" ∧
    resolveRun (applyTrace initState ((runProcess oHappy).take 7)) =
      some "http://localhost:32768" ∧
    (applyTrace initState (runProcess oHappy)).status = RunStatus.ready := by
  decide

/-- **C2 (amended).** At quiescent points (between endpoint operations)
a run is registered iff its status is `ready`, and `resolve` returns a
URL iff the status is `ready`; during the `healthy → ready` transition
registration precedes the status flip by one step. -/
theorem claim2_registry_iff_ready (s : SysState) (h : Reachable s) :
    (s.registeredUrl.isSome = true ↔ s.status = .ready) ∧
    ((resolveRun s).isSome = true ↔ s.status = .ready) := by
  obtain ⟨i1, i2, i3, i4, i5⟩ := reachable_inv h
  refine ⟨i2, ?_⟩
  rw [← i2]
  cases hr : s.registeredUrl with
  | none => simp [resolveRun, hr]
  | some u =>
    have hne := i1 u hr
    simp [resolveRun, hr, hne]

/-- **C2 witness.** The quiescent state after a fully successful run:
registered and `ready`. -/
theorem claim2_witness :
    ((finalFrom initState oHappy).registeredUrl.isSome = true ↔
      (finalFrom initState oHappy).status = RunStatus.ready) ∧
    ((resolveRun (finalFrom initState oHappy)).isSome = true ↔
      (finalFrom initState oHappy).status = RunStatus.ready) :=
  claim2_registry_iff_ready _ (Reachable.proc oHappy Reachable.init ⟨rfl, rfl, rfl⟩)

/-- **C3 counterexample.** A file set containing only `app/page.tsx`
(no manifest, hence no `build`/`start` scripts) passes `validateCode`,
and with that file set a run proceeds all the way to `ready` — the
claimed manifest checks do not exist in the active client. -/
theorem claim3_cex :
    validateCode ⟨filesPageOnly⟩ = Except.ok () ∧
    lookupAssoc filesPageOnly "package.json" = none ∧
    (finalO oManifestFree).status = RunStatus.ready :=
  ⟨rfl, rfl, by decide⟩

/-- **C3 (amended).** After code generation the engine validates only
that `app/page.tsx` is present, non-empty and contains `export
default` (the manifest is supplied by the fixed template, not
validated); any validation error is fatal: the run ends `failed` with
that error recorded. -/
theorem claim3_validation (files : List (String × String)) :
    (validateCode ⟨files⟩ = .ok () ↔
      ∃ c, lookupAssoc files "app/page.tsx" = some c ∧ c ≠ "" ∧
        strIncludes c "export default" = true) ∧
    (∀ o e, o.gen = .ok files → validateCode ⟨files⟩ = .error e →
      (finalO o).status = .failed ∧ (finalO o).error = some e) := by
  refine ⟨validateCode_ok_iff files, ?_⟩
  intro o e hg hv
  obtain ⟨gen, be, rs, pr⟩ := o
  simp only at hg
  subst hg
  constructor
  · simp [finalO, initState, finalFrom, runProcess, hv, applyTrace, failActions,
      applyAction, applyPatch]
  · simp [finalO, initState, finalFrom, runProcess, hv, applyTrace, failActions,
      applyAction, applyPatch, Option.orElse]

/-- **C3 witness.** An empty generated file set fails validation and
the run fails with `Missing app/page.tsx`. -/
theorem claim3_witness :
    (finalO oNoPage).status = RunStatus.failed ∧
    (finalO oNoPage).error = some "Missing app/page.tsx" :=
  (claim3_validation []).2 oNoPage "Missing app/page.tsx" rfl rfl

/-- **C8.** Killing a run that is already terminal (or whose container
is no longer tracked) at a quiescent point is a no-op returning
success: the endpoint replies success and containers, registry and
workspaces are unchanged. -/
theorem claim8_kill_terminal_noop (s : SysState) (h : Reachable s)
    (hterm : s.status.isTerminal = true ∨ s.tracked = false) :
    (killEndpoint s).1 = true ∧
    (killEndpoint s).2.tracked = s.tracked ∧
    (killEndpoint s).2.workspace = s.workspace ∧
    (killEndpoint s).2.registeredUrl = s.registeredUrl := by
  obtain ⟨i1, i2, i3, i4, i5⟩ := reachable_inv h
  have htr : s.tracked = false := by
    rcases hterm with h1 | h1
    · exact (i4 h1).1
    · exact h1
  have hreg : s.registeredUrl = none := by
    cases hr : s.registeredUrl with
    | none => rfl
    | some u =>
      have ht := i3 (by simp [hr])
      rw [htr] at ht
      cases ht
  refine ⟨rfl, ?_, ?_, ?_⟩ <;>
    simp [killEndpoint, applyPatch, dockerKillState, htr, hreg]

/-- **C8 witness.** Killing an already-terminated run (killed once from
the initial state) again: success, and containers/registry/workspaces
unchanged. -/
theorem claim8_witness :
    (killEndpoint (killEndpoint initState).2).1 = true ∧
    (killEndpoint (killEndpoint initState).2).2.tracked =
      (killEndpoint initState).2.tracked ∧
    (killEndpoint (killEndpoint initState).2).2.workspace =
      (killEndpoint initState).2.workspace ∧
    (killEndpoint (killEndpoint initState).2).2.registeredUrl =
      (killEndpoint initState).2.registeredUrl :=
  claim8_kill_terminal_noop _ (Reachable.kill Reachable.init) (Or.inl rfl)

/-- **C4.** Evaluation at the failing input: an overlay path containing
`..` is written *outside* the run's workspace directory — no
`UnsafePathError` (or any rejection) exists in `prepareWorkspace`. -/
theorem claim4_path_escape_eval :
    prepareWorkspaceWrites "/tmp/llm-arena-workspaces/run1" [("../escape.txt", "x")] =
      [("/tmp/llm-arena-workspaces/escape.txt", "x")] ∧
    strStarts "/tmp/llm-arena-workspaces/escape.txt"
      "/tmp/llm-arena-workspaces/run1/" = false := by
  decide

end LLMArena
